import Mathlib

/-!
Shallow embedding of `lib/rich_helper.py` from the deathstar-pi-hole-setup
repository: a Rich-terminal formatting facade plus a command-line dispatcher.
Rendering is modelled as data (panels, tables, styled lines) rather than as
terminal side effects; each Python function becomes a total Lean function
from its arguments to the rendering it would emit.
-/

namespace RichHelper

/-- Box styles used by the module (`box.DOUBLE`, `box.ROUNDED`). -/
inductive BoxStyle
  | DOUBLE
  | ROUNDED
deriving DecidableEq, Repr

/-- Model of a `rich.panel.Panel` as constructed by this module: its content
markup, optional title markup, border style, box style, and optional padding. -/
structure PanelR where
  content : String
  title : Option String
  border_style : String
  box : BoxStyle
  padding : Option (Nat × Nat)
deriving DecidableEq, Repr

/-- Model of one table column as added by `table.add_column`. -/
structure ColumnR where
  header : String
  style : String
  no_wrap : Bool
deriving DecidableEq, Repr

/-- Model of a `rich.table.Table` as constructed by this module. -/
structure TableR where
  title : String
  box : BoxStyle
  columns : List ColumnR
  rows : List (List String)
deriving DecidableEq, Repr

/-- One unit of console output produced by a facade operation. -/
inductive Render
  | line (s : String)
  | panel (p : PanelR)
  | table (t : TableR)
deriving DecidableEq, Repr

/-- Python truthiness of an optional string: `None` and `""` are falsy,
every other string is truthy. Used to model `if details:`, `if subtitle:`,
`if overall_status:` and `or`-defaulting on string flags. -/
def pyTruthyStr : Option String → Bool
  | none => false
  | some s => s ≠ ""

/-- Python `d.get(k, default)` over a string-keyed dict modelled as a
partial function. -/
def dictGet (d : String → Option String) (k dflt : String) : String :=
  (d k).getD dflt

/-- The `styles` dict of `print_status`. -/
def stylesDict (s : String) : Option String :=
  if s = "info" then some "blue"
  else if s = "success" then some "green"
  else if s = "warning" then some "yellow"
  else if s = "error" then some "red"
  else none

/-- The f-string of `print_status`: `f"[{c}]{message}[/{c}]"`. -/
def statusLine (c message : String) : String :=
  "[" ++ c ++ "]" ++ message ++ "[/" ++ c ++ "]"

/-- Embedding of `print_status(message, style="info")`: one styled line,
with the color looked up in `styles` and defaulting to `"white"`. -/
def print_status (message : String) (style : String) : List Render :=
  [Render.line (statusLine (dictGet stylesDict style "white") message)]

/-- The `status_icons` dict of `print_check`. -/
def status_icons (s : String) : Option String :=
  if s = "PASS" then some "✅"
  else if s = "FAIL" then some "❌"
  else if s = "WARN" then some "⚠️"
  else if s = "INFO" then some "ℹ️"
  else none

/-- The `status_colors` dict of `print_check`. -/
def status_colors (s : String) : Option String :=
  if s = "PASS" then some "green"
  else if s = "FAIL" then some "red"
  else if s = "WARN" then some "yellow"
  else if s = "INFO" then some "blue"
  else none

/-- The f-string of `print_check`:
`f"  \x7bicon\x7d [\x7bcolor\x7d]\x7bstatus\x7d[/\x7bcolor\x7d] - \x7bname\x7d"`. -/
def checkLine (icon color st name : String) : String :=
  "  " ++ icon ++ " [" ++ color ++ "]" ++ st ++ "[/" ++ color ++ "] - " ++ name

/-- Embedding of `print_check(name, status, details="")`: an icon + colored
status line, then an indented details line when `details` is truthy. -/
def print_check (name st details : String) : List Render :=
  let icon := (status_icons st).getD "•"
  let color := (status_colors st).getD "white"
  [Render.line (checkLine icon color st name)]
    ++ (if details ≠ "" then [Render.line ("       " ++ details)] else [])

/-- Python 3 `round` on a rational: round half to even (banker's rounding). -/
def pyRound (q : ℚ) : ℤ :=
  let f : ℤ := Int.floor q
  let r : ℚ := q - (f : ℚ)
  if r < 1/2 then f
  else if (1 : ℚ)/2 < r then f + 1
  else if f % 2 = 0 then f else f + 1

/-- The EXCELLENT status panel of `print_summary`. -/
def excellentPanel : PanelR :=
  { content := "[bold green]🌟 EXCELLENT[/bold green]\n[dim]All critical checks passed! Scripts are well-synchronized.[/dim]"
    title := none
    border_style := "green"
    box := BoxStyle.ROUNDED
    padding := none }

/-- The GOOD status panel of `print_summary`. -/
def goodPanel : PanelR :=
  { content := "[bold yellow]⚠️  GOOD[/bold yellow]\n[dim]Minor issues detected. Review failed checks below.[/dim]"
    title := none
    border_style := "yellow"
    box := BoxStyle.ROUNDED
    padding := none }

/-- The NEEDS ATTENTION status panel of `print_summary`. -/
def needsAttentionPanel : PanelR :=
  { content := "[bold red]❌ NEEDS ATTENTION[/bold red]\n[dim]Multiple issues detected. Immediate review recommended.[/dim]"
    title := none
    border_style := "red"
    box := BoxStyle.ROUNDED
    padding := none }

/-- The output of `print_summary`: the statistics table and the status panel
that follows it. -/
structure SummaryRender where
  stats : TableR
  status_panel : PanelR
deriving DecidableEq, Repr

/-- Embedding of `print_summary(total, passed, warnings, failed, rate=None,
overall_status=None)`: `success_rate` falls back to
`round(passed / total * 100)` when `total > 0` else `0`; the status panel is
chosen from `overall_status` when truthy, else derived from the counts. -/
def print_summary (total passed warnings failed : ℤ) (rate : Option ℤ)
    (overall_status : Option String) : SummaryRender :=
  let success_rate : ℤ :=
    match rate with
    | none => if total > 0 then pyRound (((passed : ℚ) / (total : ℚ)) * 100) else 0
    | some r => r
  let stats : TableR :=
    { title := "📊 Summary Statistics"
      box := BoxStyle.ROUNDED
      columns := [{ header := "Metric", style := "cyan", no_wrap := true },
                  { header := "Count", style := "white", no_wrap := true }]
      rows := [["Total Categories", toString total],
               ["✅ Passed", "[green]" ++ toString passed ++ "[/green]"],
               ["⚠️  Warnings", "[yellow]" ++ toString warnings ++ "[/yellow]"],
               ["❌ Failed", "[red]" ++ toString failed ++ "[/red]"],
               ["📈 Success Rate", "[bold]" ++ toString success_rate ++ "%[/bold]"]] }
  let status_panel : PanelR :=
    if pyTruthyStr overall_status then
      let os := overall_status.getD ""
      if os = "EXCELLENT" then excellentPanel
      else if os = "GOOD" then goodPanel
      else needsAttentionPanel
    else
      if failed = 0 ∧ warnings = 0 then excellentPanel
      else if failed ≤ 3 then goodPanel
      else needsAttentionPanel
  { stats := stats, status_panel := status_panel }

/-- The success-rate cell as printed into the summary table. -/
def rateCell (r : ℤ) : String :=
  "[bold]" ++ toString r ++ "%[/bold]"

/-- The cell of the summary statistics table that displays the success rate
(row 4, column 1). -/
def displayedRate (sr : SummaryRender) : Option String :=
  (sr.stats.rows.get? 4).bind (fun row => row.get? 1)

/-- The legal-disclaimer panel of `print_disclaimer`. -/
def legalPanel : PanelR :=
  { content := "[bold red]⚠️  LEGAL DISCLAIMER ⚠️[/bold red]\n\nThis script is provided \x27AS IS\x27 without warranty of any kind.\nThe author(s) cannot be held responsible for any damage,\ndata loss, system instability, or other issues that may\nresult from running this script.\n\n[bold]YOU RUN THIS SCRIPT ENTIRELY AT YOUR OWN RISK.[/bold]\n\nBy proceeding, you acknowledge that you:\n• Understand the risks involved\n• Have backups of important data\n• Accept full responsibility for any consequences\n• Release the author(s) from any liability"
    title := some "[bold red]LEGAL DISCLAIMER[/bold red]"
    border_style := "red"
    box := BoxStyle.DOUBLE
    padding := some (1, 2) }

/-- The complete-removal confirmation panel of `print_disclaimer`. -/
def removalPanel : PanelR :=
  { content := "[bold red]🚨 COMPLETE REMOVAL CONFIRMATION 🚨[/bold red]\n\nThis will [bold]COMPLETELY REMOVE[/bold] all Death Star Pi components:\n• Docker and all containers\n• Ansible (if installed by this script)\n• All configuration files and data\n• System modifications and optimizations\n\nType \x27[bold yellow]REMOVE DEATH STAR[/bold yellow]\x27 to proceed with complete removal,\nor anything else to use interactive mode."
    title := some "[bold red]COMPLETE REMOVAL CONFIRMATION[/bold red]"
    border_style := "red"
    box := BoxStyle.DOUBLE
    padding := some (1, 2) }

/-- The complete-system-removal warning panel of `print_disclaimer`. -/
def systemRemovalPanel : PanelR :=
  { content := "[bold red]⚠️  COMPLETE SYSTEM REMOVAL ⚠️[/bold red]\n\nThis will completely remove all Death Star Pi components:\n• Pi-hole (DNS filtering)\n• Grafana & Prometheus (monitoring)\n• All monitoring services\n• Docker containers, images, and volumes\n• internet-pi repository and configurations\n• Ansible collections and configurations\n• System hostname and /etc/hosts changes\n• Pi 5 boot optimizations (if applicable)\n• PADD alias and customizations (if applicable)\n\n[bold red]⚠️  THIS ACTION CANNOT BE UNDONE! ⚠️[/bold red]"
    title := some "[bold red]COMPLETE SYSTEM REMOVAL[/bold red]"
    border_style := "red"
    box := BoxStyle.DOUBLE
    padding := some (1, 2) }

/-- The fallback panel of `print_disclaimer` for an unknown type. -/
def unknownPanel : PanelR :=
  { content := "[bold yellow]Unknown disclaimer type[/bold yellow]"
    title := none
    border_style := "yellow"
    box := BoxStyle.ROUNDED
    padding := none }

/-- Embedding of `print_disclaimer(disclaimer_type="legal")`: one of three
fixed panels keyed on the type, or the unknown-type panel. -/
def print_disclaimer (disclaimer_type : String) : PanelR :=
  if disclaimer_type = "legal" then legalPanel
  else if disclaimer_type = "removal" then removalPanel
  else if disclaimer_type = "system_removal" then systemRemovalPanel
  else unknownPanel

/-- One event on the `rich.progress.Progress` context of
`print_progress_bar`: registering the task, or one `update(advance=...)`
call after the per-step sleep. -/
inductive ProgressEvent
  | add_task (description : String) (total : ℤ)
  | update (advance : ℤ)
deriving DecidableEq, Repr

/-- Embedding of `print_progress_bar(description)`: the task is added with
`total=100`, then the `for i in range(100)` loop issues one
`update(advance=1)` per iteration (the `time.sleep(0.02)` is pure delay and
carries no data). -/
def print_progress_bar (description : String) : List ProgressEvent :=
  ProgressEvent.add_task description 100 ::
    (List.range 100).map (fun _ => ProgressEvent.update 1)

/-- The advances of all `update` events in a progress trace, in order. -/
def progressAdvances : List ProgressEvent → List ℤ
  | [] => []
  | ProgressEvent.add_task _ _ :: es => progressAdvances es
  | ProgressEvent.update a :: es => a :: progressAdvances es

/-- The completed amount of the task after a progress trace (sum of advances). -/
def progressCompleted (es : List ProgressEvent) : ℤ :=
  (progressAdvances es).sum

/-- The parsed argument record produced by the `argparse` parser in `main`:
one positional command plus the optional flags, absent flags being `None`. -/
structure Args where
  command : String
  title : Option String
  subtitle : Option String
  message : Option String
  style : Option String
  type : Option String
  name : Option String
  status : Option String
  details : Option String
  total : Option ℤ
  passed : Option ℤ
  warnings : Option ℤ
  failed : Option ℤ
  rate : Option ℤ
  overall_status : Option String
deriving DecidableEq, Repr

/-- The `choices` list of the positional `command` argument. -/
def commandChoices : List String :=
  ["header", "section", "status", "check", "table", "summary", "progress", "disclaimer"]

/-- Python `x or default` on an optional string flag: `None` and `""` give
the default. -/
def orStr (o : Option String) (dflt : String) : String :=
  match o with
  | none => dflt
  | some s => if s = "" then dflt else s

/-- Python `x or default` on an optional integer flag: `None` and `0` give
the default. -/
def orInt (o : Option ℤ) (dflt : ℤ) : ℤ :=
  match o with
  | none => dflt
  | some n => if n = 0 then dflt else n

/-- A facade operation invoked by the dispatcher, with the arguments it is
given. -/
inductive FacadeCall
  | header (title subtitle : String)
  | sectionBanner (title : String)
  | statusMsg (message style : String)
  | check (name st details : String)
  | disclaimer (t : String)
  | summary (total passed warnings failed : ℤ) (rate : Option ℤ)
      (overall_status : Option String)
  | progress (description : String)
deriving DecidableEq, Repr

/-- Embedding of the dispatch chain of `main` (after successful argument
parsing): which facade operation is called, with which arguments; `none`
when no branch matches the command. -/
def main_dispatch (a : Args) : Option FacadeCall :=
  if a.command = "header" then
    some (FacadeCall.header (orStr a.title "Header") (orStr a.subtitle ""))
  else if a.command = "section" then
    some (FacadeCall.sectionBanner (orStr a.title "Section"))
  else if a.command = "status" then
    some (FacadeCall.statusMsg (orStr a.message "Status") (orStr a.style "info"))
  else if a.command = "check" then
    some (FacadeCall.check (orStr a.name "Check") (orStr a.status "PASS") (orStr a.details ""))
  else if a.command = "disclaimer" then
    some (FacadeCall.disclaimer (orStr a.type "legal"))
  else if a.command = "summary" then
    some (FacadeCall.summary (orInt a.total 0) (orInt a.passed 0) (orInt a.warnings 0)
      (orInt a.failed 0) a.rate a.overall_status)
  else if a.command = "progress" then
    some (FacadeCall.progress (orStr a.message "Processing"))
  else
    none

/-- Helper: the advances extracted from a run of identical `update a` events. -/
theorem progressAdvances_replicate (n : ℕ) (a : ℤ) :
    progressAdvances (List.replicate n (ProgressEvent.update a)) = List.replicate n a := by
  induction n with
  | zero => rfl
  | succ k ih => simp [List.replicate_succ, progressAdvances, ih]

/-- C1: with no caller-supplied overall status, `print_summary` derives the
status tier from the counts: EXCELLENT when failed = 0 and warnings = 0,
else GOOD when failed ≤ 3, else NEEDS ATTENTION; in particular
summary(10,7,0,3) is GOOD, summary(10,10,0,0) is EXCELLENT and
summary(10,2,1,7) is NEEDS ATTENTION. -/
theorem summary_derived_tier (total passed warnings failed : ℤ) (rate : Option ℤ) :
    ((print_summary total passed warnings failed rate none).status_panel =
      if failed = 0 ∧ warnings = 0 then excellentPanel
      else if failed ≤ 3 then goodPanel
      else needsAttentionPanel)
    ∧ (print_summary 10 7 0 3 none none).status_panel = goodPanel
    ∧ (print_summary 10 10 0 0 none none).status_panel = excellentPanel
    ∧ (print_summary 10 2 1 7 none none).status_panel = needsAttentionPanel := by
  refine ⟨rfl, ?_, ?_, ?_⟩ <;> decide

/-- C2: with `rate` absent the displayed success rate is
`round(passed / total * 100)` when total > 0 and 0 when it is not; with
`rate` supplied the displayed success rate is the supplied value. -/
theorem summary_rate_fallback (total passed warnings failed : ℤ) (os : Option String) :
    (displayedRate (print_summary total passed warnings failed none os) =
      some (rateCell (if total > 0 then pyRound (((passed : ℚ) / (total : ℚ)) * 100) else 0)))
    ∧ ∀ r : ℤ, displayedRate (print_summary total passed warnings failed (some r) os) =
        some (rateCell r) := by
  exact ⟨rfl, fun r => rfl⟩

/-- C3: "table" is an accepted subcommand, but the dispatch chain of `main`
has no branch for it, so no facade operation is invoked for it. -/
theorem table_dispatch_noop (a : Args) (h : a.command = "table") :
    "table" ∈ commandChoices ∧ main_dispatch a = none := by
  refine ⟨by decide, ?_⟩
  unfold main_dispatch
  rw [h]
  rfl

/-- Witness for C3 at a concrete argument record. -/
theorem table_dispatch_noop_w :
    "table" ∈ commandChoices ∧
      main_dispatch ⟨"table", none, none, none, none, none, none, none, none,
        none, none, none, none, none, none⟩ = none :=
  table_dispatch_noop ⟨"table", none, none, none, none, none, none, none, none,
    none, none, none, none, none, none⟩ rfl

/-- C4: the three recognized disclaimer kinds render pairwise-distinct fixed
panels, and every other kind renders the generic unknown-type panel (the
function is total, so no kind raises). -/
theorem disclaimer_cases :
    (print_disclaimer "legal" ≠ print_disclaimer "removal"
      ∧ print_disclaimer "legal" ≠ print_disclaimer "system_removal"
      ∧ print_disclaimer "removal" ≠ print_disclaimer "system_removal")
    ∧ ∀ k : String, k ≠ "legal" → k ≠ "removal" → k ≠ "system_removal" →
        print_disclaimer k = unknownPanel := by
  constructor
  · refine ⟨?_, ?_, ?_⟩ <;> decide
  · intro k h1 h2 h3
    simp [print_disclaimer, h1, h2, h3]

/-- Witness for C4 at a concrete unrecognized kind. -/
theorem disclaimer_cases_w : print_disclaimer "bogus" = unknownPanel :=
  disclaimer_cases.2 "bogus" (by decide) (by decide) (by decide)

/-- C5: for a status tag outside PASS, FAIL, WARN, INFO, `print_check`
renders with the bullet icon and white (never raising, being total), and for
the four known tags it uses the fixed icon and color of the tag. -/
theorem check_fallback (name st details : String)
    (h1 : st ≠ "PASS") (h2 : st ≠ "FAIL") (h3 : st ≠ "WARN") (h4 : st ≠ "INFO") :
    (print_check name st details).head? =
      some (Render.line (checkLine "•" "white" st name))
    ∧ (∀ nm d, (print_check nm "PASS" d).head? =
        some (Render.line (checkLine "✅" "green" "PASS" nm)))
    ∧ (∀ nm d, (print_check nm "FAIL" d).head? =
        some (Render.line (checkLine "❌" "red" "FAIL" nm)))
    ∧ (∀ nm d, (print_check nm "WARN" d).head? =
        some (Render.line (checkLine "⚠️" "yellow" "WARN" nm)))
    ∧ (∀ nm d, (print_check nm "INFO" d).head? =
        some (Render.line (checkLine "ℹ️" "blue" "INFO" nm))) := by
  refine ⟨?_, fun nm d => rfl, fun nm d => rfl, fun nm d => rfl, fun nm d => rfl⟩
  simp [print_check, status_icons, status_colors, h1, h2, h3, h4]

/-- Witness for C5 at a concrete unknown status tag. -/
theorem check_fallback_w :
    (print_check "Check" "BOGUS" "").head? =
      some (Render.line (checkLine "•" "white" "BOGUS" "Check")) :=
  (check_fallback "Check" "BOGUS" "" (by decide) (by decide) (by decide) (by decide)).1

/-- C6: for a style tag outside info, success, warning, error, `print_status`
renders with the default color white (never raising, being total), and for
the four known tags it uses the mapped color. -/
theorem status_fallback (message st : String)
    (h1 : st ≠ "info") (h2 : st ≠ "success") (h3 : st ≠ "warning") (h4 : st ≠ "error") :
    print_status message st = [Render.line (statusLine "white" message)]
    ∧ (∀ m, print_status m "info" = [Render.line (statusLine "blue" m)])
    ∧ (∀ m, print_status m "success" = [Render.line (statusLine "green" m)])
    ∧ (∀ m, print_status m "warning" = [Render.line (statusLine "yellow" m)])
    ∧ (∀ m, print_status m "error" = [Render.line (statusLine "red" m)]) := by
  refine ⟨?_, fun m => rfl, fun m => rfl, fun m => rfl, fun m => rfl⟩
  simp [print_status, dictGet, stylesDict, h1, h2, h3, h4]

/-- Witness for C6 at a concrete unknown style tag. -/
theorem status_fallback_w :
    print_status "Status" "BOGUS" = [Render.line (statusLine "white" "Status")] :=
  (status_fallback "Status" "BOGUS" (by decide) (by decide) (by decide) (by decide)).1

/-- C7: for every description `print_progress_bar` terminates (it is a total
function) with a trace that registers the task with total 100 and then
performs exactly 100 update steps of advance 1, leaving the task fully
completed. -/
theorem progress_trace (description : String) :
    (print_progress_bar description).head? =
      some (ProgressEvent.add_task description 100)
    ∧ progressAdvances (print_progress_bar description) = List.replicate 100 1
    ∧ progressCompleted (print_progress_bar description) = 100 := by
  have hmap : (List.range 100).map (fun _ => ProgressEvent.update (1 : ℤ)) =
      List.replicate 100 (ProgressEvent.update 1) := by decide
  have hadv : progressAdvances (print_progress_bar description) = List.replicate 100 1 := by
    show progressAdvances ((List.range 100).map fun _ => ProgressEvent.update 1) =
      List.replicate 100 1
    rw [hmap, progressAdvances_replicate]
  refine ⟨rfl, hadv, ?_⟩
  rw [progressCompleted, hadv]
  simp

/-- C8: a caller-supplied overall status that is non-empty and neither
"EXCELLENT" nor "GOOD" always selects the NEEDS ATTENTION panel, whatever the
counts are. -/
theorem summary_supplied_status (total passed warnings failed : ℤ) (rate : Option ℤ)
    (os : String) (h0 : os ≠ "") (h1 : os ≠ "EXCELLENT") (h2 : os ≠ "GOOD") :
    (print_summary total passed warnings failed rate (some os)).status_panel =
      needsAttentionPanel := by
  simp [print_summary, pyTruthyStr, h0, h1, h2]

/-- Witness for C8 at a concrete misspelled status string. -/
theorem summary_supplied_status_w :
    (print_summary 0 0 0 0 none (some "NEEDS ATENTION")).status_panel =
      needsAttentionPanel :=
  summary_supplied_status 0 0 0 0 none "NEEDS ATENTION"
    (by decide) (by decide) (by decide)

/-- C9: `print_summary` tests `rate` by identity with None but the overall
status by truthiness: a supplied rate, 0 or out of range included, is
displayed verbatim (at total=10, passed=10 a supplied 0 is shown, not the
recomputed 100), while a supplied empty overall status is treated as absent
and the tier is derived from the counts. -/
theorem summary_rate_identity (total passed warnings failed : ℤ) :
    (∀ r : ℤ, displayedRate (print_summary total passed warnings failed (some r) none) =
        some (rateCell r))
    ∧ displayedRate (print_summary 10 10 0 0 (some 0) none) = some (rateCell 0)
    ∧ rateCell 0 ≠ rateCell 100
    ∧ (print_summary total passed warnings failed none (some "")).status_panel =
        (print_summary total passed warnings failed none none).status_panel := by
  exact ⟨fun r => rfl, rfl, by decide, rfl⟩

/-- C10: the dispatcher, given the progress subcommand with no --message
flag, calls the progress operation with description "Processing". -/
theorem progress_default_message (a : Args) (h1 : a.command = "progress")
    (h2 : a.message = none) :
    main_dispatch a = some (FacadeCall.progress "Processing") := by
  unfold main_dispatch
  rw [h1, h2]
  rfl

/-- Witness for C10 at a concrete argument record. -/
theorem progress_default_message_w :
    main_dispatch ⟨"progress", none, none, none, none, none, none, none, none,
      none, none, none, none, none, none⟩ = some (FacadeCall.progress "Processing") :=
  progress_default_message ⟨"progress", none, none, none, none, none, none, none,
    none, none, none, none, none, none, none⟩ rfl rfl

end RichHelper
